import Mathlib

/-!
Verification development for the Autonomous Market Research script
(`main.py`).  The script configures a two-agent sequential pipeline:
a research analyst with search/scrape tools and a content officer
without tools, orchestrated by a sequential crew, with environment
validation, report saving and top-level error printing around it.

The data model and the functions of `main.py` are embedded shallowly:
the process environment is a map from variable names to optional
string values, external effects (task execution by the library
orchestrator, write failures) are passed in as explicit parameters,
and Python exceptions are modelled by `Except` with the exception
type name and message recorded.
-/

namespace MarketResearch

/-- The process environment: `os.getenv` returns `none` for an absent
variable and `some v` for a variable set to `v` (possibly empty). -/
abbrev Env := String → Option String

/-- A Python exception, reduced to its type name and its message,
which is all the top-level handler in `main` uses. -/
structure PyError where
  name : String
  msg : String
deriving DecidableEq

/-- The two external tools constructed at module load:
`SerperDevTool()` (web search) and `ScrapeWebsiteTool()` (page scrape). -/
inductive Tool
  | serperDevTool
  | scrapeWebsiteTool
deriving DecidableEq

/-- `search_tool = SerperDevTool()`. -/
def search_tool : Tool := Tool.serperDevTool

/-- `scrape_tool = ScrapeWebsiteTool()`. -/
def scrape_tool : Tool := Tool.scrapeWebsiteTool

/-- The `ChatOpenAI(...)` language-model binding: model identifier,
sampling temperature and credential, exactly the three arguments the
script passes. -/
structure ChatOpenAI where
  model : String
  temperature : ℚ
  api_key : Option String
deriving DecidableEq

/-- A crewai `Agent` as configured by the script: role, goal and
backstory text, verbosity, the delegation switch, the tool list
(defaults to empty when the constructor argument is omitted, as in
`create_content_officer`) and the language-model binding. -/
structure Agent where
  role : String
  goal : String
  backstory : String
  verbose : Bool
  allow_delegation : Bool
  tools : List Tool := []
  llm : ChatOpenAI

/-- A crewai `Task` as configured by the script: description text,
expected-output text and the single agent assigned to it. -/
structure Task where
  description : String
  expected_output : String
  agent : Agent

/-- The crew process policy; the script fixes it to `Process.sequential`. -/
inductive Process
  | sequential
deriving DecidableEq

/-- A crewai `Crew` as configured by the script. -/
structure Crew where
  agents : List Agent
  tasks : List Task
  process : Process
  verbose : Bool

/-- `create_research_analyst()`: the Senior Market Research Analyst,
with both tools, delegation disabled, and a `ChatOpenAI` binding
reading `OPENAI_MODEL` (default `gpt-4`), temperature `0.7` and the
`OPENAI_API_KEY` credential.  `os.getenv(k, d)` returns `d` only when
`k` is absent, which is `Option.getD` on the environment map. -/
def create_research_analyst (env : Env) : Agent :=
  { role := "Senior Market Research Analyst"
    goal := "Uncover cutting-edge developments and detailed market sentiment regarding the user\x27s topic."
    backstory :=
      "You are an expert analyst at a top-tier venture capital firm. " ++
      "You have a knack for finding hidden gems and identifying red flags in financial data. " ++
      "You never rely on surface-level news; you always dig for the original source. " ++
      "Your research is factual, data-driven, and always cites sources."
    verbose := true
    allow_delegation := false
    tools := [search_tool, scrape_tool]
    llm :=
      { model := (env "OPENAI_MODEL").getD "gpt-4"
        temperature := 0.7
        api_key := env "OPENAI_API_KEY" } }

/-- `create_content_officer()`: the Chief Content Officer, with
delegation disabled, no `tools` argument (so the empty default
applies) and the same `ChatOpenAI` binding as the analyst. -/
def create_content_officer (env : Env) : Agent :=
  { role := "Chief Content Officer"
    goal := "Synthesize complex data into a compelling executive summary for investors."
    backstory :=
      "You are a renowned financial writer known for simplifying complex tech " ++
      "and financial concepts. You take raw research data and transform it into " ++
      "clear, concise, and actionable insights. Your writing style is professional, " ++
      "objective, and easy to read."
    verbose := true
    allow_delegation := false
    llm :=
      { model := (env "OPENAI_MODEL").getD "gpt-4"
        temperature := 0.7
        api_key := env "OPENAI_API_KEY" } }

/-- `create_research_task(agent, topic)`: the research task, whose
description interpolates the topic verbatim into fixed framing text. -/
def create_research_task (agent : Agent) (topic : String) : Task :=
  { description :=
      "Conduct comprehensive research on: " ++ topic ++ "\n\n" ++
      "Your task:\n" ++
      "1. Search for the latest news, articles, and reports about this topic\n" ++
      "2. Identify and read the top 3-5 most relevant and authoritative sources\n" ++
      "3. Extract key information including:\n" ++
      "   - Recent developments and innovations\n" ++
      "   - Market trends and sentiment\n" ++
      "   - Financial performance (if applicable)\n" ++
      "   - Potential risks and red flags\n" ++
      "   - Competitive landscape\n" ++
      "4. Compile your findings with proper source citations\n" ++
      "5. Focus on factual, data-driven insights\n\n" ++
      "Remember: Always cite your sources and dig deeper than surface-level news."
    expected_output :=
      "A detailed research report containing:\n" ++
      "- Summary of key findings with source citations\n" ++
      "- Market trends and sentiment analysis\n" ++
      "- Risk factors and red flags identified\n" ++
      "- Data-driven insights and observations\n" ++
      "- List of all sources consulted"
    agent := agent }

/-- `create_writing_task(agent, topic)`: the report-writing task,
whose description interpolates the topic verbatim into fixed framing
text. -/
def create_writing_task (agent : Agent) (topic : String) : Task :=
  { description :=
      "Transform the research findings about \x27" ++ topic ++ "\x27 into a professional " ++
      "investment report in Markdown format.\n\n" ++
      "Your task:\n" ++
      "1. Review all research data provided by the Senior Research Analyst\n" ++
      "2. Create a structured report with the following sections:\n" ++
      "   - **Executive Summary**: A concise overview (3-4 paragraphs)\n" ++
      "   - **Key Findings**: Bullet points of the most important insights\n" ++
      "   - **Market Analysis**: Detailed analysis of trends and opportunities\n" ++
      "   - **Risk Assessment**: Potential concerns and red flags\n" ++
      "   - **Conclusion**: Final recommendation or summary\n" ++
      "3. Write in a clear, professional, and objective tone\n" ++
      "4. Make complex concepts accessible to investors\n" ++
      "5. Include relevant data and citations from the research\n\n" ++
      "The report should be actionable and decision-ready for investors."
    expected_output :=
      "A professional Markdown-formatted investment report with:\n" ++
      "- Executive Summary\n" ++
      "- Key Findings section\n" ++
      "- Detailed Market Analysis\n" ++
      "- Risk Assessment\n" ++
      "- Clear Conclusion with actionable insights\n" ++
      "- Proper formatting and structure"
    agent := agent }

/-- A task executor: what the external library does when the crew
runs one task.  It receives the task and the context (the ordered
outputs of all previously completed tasks) and either produces the
task result text or raises.  It stands for the agent reasoning/acting
loop (language-model calls and tool calls), which is external to the
script. -/
abbrev TaskExec := Task → List String → Except PyError String

/-- Modelled from the spec: the sequential execution loop of the
orchestrator, which is provided by the external crewai library and is
not part of this repository.  Per the spec, tasks run one at a time
in list order, each completed task result is appended to the context
visible to later tasks, and a task failure halts the run. -/
def runTasksSeq (taskExec : TaskExec) : List Task → List String → Except PyError (List String)
  | [], ctx => Except.ok ctx
  | t :: ts, ctx =>
      match taskExec t ctx with
      | Except.error e => Except.error e
      | Except.ok r => runTasksSeq taskExec ts (ctx ++ [r])

/-- Modelled from the spec: `Crew.kickoff()` is provided by the
external crewai library and is not part of this repository.  Per the
spec, an empty task sequence is an `EmptyPipeline` failure with no
execution attempted; otherwise the tasks run sequentially
(`runTasksSeq`) starting from an empty context and the final pipeline
result is the result of the last task in the sequence. -/
def Crew.kickoff (taskExec : TaskExec) (c : Crew) : Except PyError String :=
  match c.tasks with
  | [] => Except.error ⟨"EmptyPipeline", "crew has no tasks"⟩
  | _ :: _ =>
      match runTasksSeq taskExec c.tasks [] with
      | Except.error e => Except.error e
      | Except.ok outs => Except.ok (outs.getLastD "")

/-- The crew constructed inside `run_market_research`: both agents,
the research task then the writing task, sequential process. -/
def market_research_crew (env : Env) (topic : String) : Crew :=
  { agents := [create_research_analyst env, create_content_officer env]
    tasks := [create_research_task (create_research_analyst env) topic,
              create_writing_task (create_content_officer env) topic]
    process := Process.sequential
    verbose := true }

/-- `run_market_research(topic)`: builds the agents, the tasks and
the crew, and returns the result of `crew.kickoff()`.  The task
executor parameter stands for the external library execution. -/
def run_market_research (env : Env) (taskExec : TaskExec) (topic : String) :
    Except PyError String :=
  Crew.kickoff taskExec (market_research_crew env topic)

/-- The file write performed by `save_report`: target name, content,
open mode and text encoding, exactly the arguments of
`open(filename, \x27w\x27, encoding=\x27utf-8\x27)` followed by
`f.write(str(report))`. -/
structure WriteOp where
  filename : String
  content : String
  mode : String
  encoding : String
deriving DecidableEq

/-- The default value of the `filename` parameter of `save_report`. -/
def default_report_filename : String := "market_research_report.md"

/-- `save_report(report, filename)`: one write of the report text,
opened in mode `w` with UTF-8 encoding.  The Python default argument
is modelled by `default_report_filename`, which the call in `main`
uses. -/
def save_report (report : String) (filename : String) : WriteOp :=
  { filename := filename, content := report, mode := "w", encoding := "utf-8" }

/-- Applying a write to a file system (a map from names to contents):
mode `w` truncates, so the target file is overwritten with exactly
the written content and every other file is unchanged. -/
def applyWrite (fs : String → Option String) (w : WriteOp) : String → Option String :=
  fun nm => if nm = w.filename then some w.content else fs nm

/-- The required environment variables checked by `main`. -/
def required_vars : List String := ["OPENAI_API_KEY", "SERPER_API_KEY"]

/-- Python truthiness of `os.getenv(var)`: `None` (absent) and the
empty string are falsy, every other string is truthy. -/
def pyFalsy : Option String → Bool
  | none => true
  | some s => s.isEmpty

/-- `missing_vars = [var for var in required_vars if not os.getenv(var)]`. -/
def missing_vars (env : Env) : List String :=
  required_vars.filter (fun v => pyFalsy (env v))

/-- The hard-coded research topic in `main`. -/
def default_topic : String := "Applications of Generative AI in Big Data Analytics"

/-- The observable outcome of one invocation of `main`: either the
missing-configuration message (listing the missing variables), or the
success message (topic and report), or the caught-exception message
(exception type name and message). -/
inductive MainOutcome
  | missingConfig (missing : List String)
  | completed (topic : String) (report : String)
  | runFailed (errName : String) (errMsg : String)
deriving DecidableEq

/-- The body of the `try` block in `main`: run the research, then
save the report.  `saveErr` models whether the file write raises
(an I/O failure is external to the script); when it does, no write
is recorded.  On success the outcome carries the report and the
single write performed by `save_report`. -/
def main_try (env : Env) (taskExec : TaskExec) (saveErr : Option PyError) :
    Except PyError (MainOutcome × List WriteOp) :=
  match run_market_research env taskExec default_topic with
  | Except.error e => Except.error e
  | Except.ok report =>
      match saveErr with
      | some e => Except.error e
      | none =>
          Except.ok (MainOutcome.completed default_topic report,
                     [save_report report default_report_filename])

/-- `main()`: validate the environment and return early when any
required variable is missing; otherwise run the `try` body and catch
any exception, turning it into the printed `runFailed` outcome with
the exception type name and message.  The result is an `Except` so
that an uncaught exception would show as `Except.error`; the
`except Exception` handler of the script catches everything. -/
def main (env : Env) (taskExec : TaskExec) (saveErr : Option PyError) :
    Except PyError (MainOutcome × List WriteOp) :=
  if missing_vars env = [] then
    match main_try env taskExec saveErr with
    | Except.ok r => Except.ok r
    | Except.error e => Except.ok (MainOutcome.runFailed e.name e.msg, [])
  else
    Except.ok (MainOutcome.missingConfig (missing_vars env), [])

/-- An environment with no variables set. -/
def envAbsent : Env := fun _ => none

/-- An environment with both required credentials set to non-empty
values and `OPENAI_MODEL` unset. -/
def envFull : Env := fun k =>
  if k = "OPENAI_API_KEY" then some "sk-test"
  else if k = "SERPER_API_KEY" then some "serper-test"
  else none

/-- An environment where `OPENAI_API_KEY` is set to the empty string
and every other variable is set to a non-empty value. -/
def envEmptyKey : Env := fun k =>
  if k = "OPENAI_API_KEY" then some "" else some "x"

/-- A deterministic task executor that returns the size of the
context it was handed, so that the result records how many prior
task outputs were visible. -/
def okExec : TaskExec := fun _ ctx => Except.ok (toString ctx.length)

/-- A task executor that succeeds with a fixed result on every task. -/
def constExec (r : String) : TaskExec := fun _ _ => Except.ok r

/-- A task executor that raises on every task. -/
def failExec (e : PyError) : TaskExec := fun _ _ => Except.error e

/-- The fixed framing text of the research-task description after the
interpolated topic. -/
def research_task_framing : String :=
  "\n\nYour task:\n1. Search for the latest news, articles, and reports about this topic\n2. Identify and read the top 3-5 most relevant and authoritative sources\n3. Extract key information including:\n   - Recent developments and innovations\n   - Market trends and sentiment\n   - Financial performance (if applicable)\n   - Potential risks and red flags\n   - Competitive landscape\n4. Compile your findings with proper source citations\n5. Focus on factual, data-driven insights\n\nRemember: Always cite your sources and dig deeper than surface-level news."

/-- The fixed framing text of the writing-task description after the
interpolated topic. -/
def writing_task_framing : String :=
  "\x27 into a professional investment report in Markdown format.\n\nYour task:\n1. Review all research data provided by the Senior Research Analyst\n2. Create a structured report with the following sections:\n   - **Executive Summary**: A concise overview (3-4 paragraphs)\n   - **Key Findings**: Bullet points of the most important insights\n   - **Market Analysis**: Detailed analysis of trends and opportunities\n   - **Risk Assessment**: Potential concerns and red flags\n   - **Conclusion**: Final recommendation or summary\n3. Write in a clear, professional, and objective tone\n4. Make complex concepts accessible to investors\n5. Include relevant data and citations from the research\n\nThe report should be actionable and decision-ready for investors."

/-- Claim C1: for every run, `run_market_research` executes the two
tasks strictly in list order (research task first, writing task
second) under the sequential process policy, making the research
task result available as context to the writing task, and returns
the final (writing) task result as the pipeline output. -/
theorem run_market_research_sequential (env : Env) (taskExec : TaskExec)
    (topic r1 r2 : String)
    (h1 : taskExec (create_research_task (create_research_analyst env) topic) [] =
      Except.ok r1)
    (h2 : taskExec (create_writing_task (create_content_officer env) topic) [r1] =
      Except.ok r2) :
    (market_research_crew env topic).process = Process.sequential ∧
    (market_research_crew env topic).tasks =
      [create_research_task (create_research_analyst env) topic,
       create_writing_task (create_content_officer env) topic] ∧
    run_market_research env taskExec topic = Except.ok r2 := by
  refine ⟨rfl, rfl, ?_⟩
  simp [run_market_research, market_research_crew, Crew.kickoff, runTasksSeq, h1, h2]

/-- Witness for claim C1 at a concrete environment, topic and
executor: the research task sees an empty context, the writing task
sees exactly the one research output, and the pipeline returns the
writing task result. -/
theorem run_market_research_sequential_witness :
    (market_research_crew envFull "AI chips").process = Process.sequential ∧
    (market_research_crew envFull "AI chips").tasks =
      [create_research_task (create_research_analyst envFull) "AI chips",
       create_writing_task (create_content_officer envFull) "AI chips"] ∧
    run_market_research envFull okExec "AI chips" = Except.ok "1" :=
  run_market_research_sequential envFull okExec "AI chips" "0" "1" rfl rfl

/-- Claim C2: if any required environment variable is missing, `main`
reports the list of missing variables and returns without attempting
a run — the result does not depend on the task executor and no write
is performed, so no language-model call and no tool call occurs and
no report is produced. -/
theorem main_missing_config (env : Env) (taskExec : TaskExec)
    (saveErr : Option PyError) (h : missing_vars env ≠ []) :
    main env taskExec saveErr =
      Except.ok (MainOutcome.missingConfig (missing_vars env), []) := by
  simp [main, h]

/-- Witness for claim C2: with no environment variables set, both
required variables are reported missing and nothing runs. -/
theorem main_missing_config_witness :
    main envAbsent okExec none =
      Except.ok (MainOutcome.missingConfig ["OPENAI_API_KEY", "SERPER_API_KEY"], []) :=
  main_missing_config envAbsent okExec none (by decide)

/-- Claim C3: if the run fails (`run_market_research` raises), `main`
reports the failure kind and message and finishes without writing a
report file — the write list is empty, so no output artifact is
emitted. -/
theorem main_run_failure (env : Env) (taskExec : TaskExec)
    (saveErr : Option PyError) (e : PyError)
    (hmiss : missing_vars env = [])
    (hrun : run_market_research env taskExec default_topic = Except.error e) :
    main env taskExec saveErr =
      Except.ok (MainOutcome.runFailed e.name e.msg, []) := by
  simp [main, hmiss, main_try, hrun]

/-- Witness for claim C3 at a concrete failing executor: the raised
exception type and message are reported and no file is written. -/
theorem main_run_failure_witness :
    main envFull (failExec ⟨"ValueError", "api down"⟩) none =
      Except.ok (MainOutcome.runFailed "ValueError" "api down", []) :=
  main_run_failure envFull (failExec ⟨"ValueError", "api down"⟩) none
    ⟨"ValueError", "api down"⟩ (by decide) rfl

/-- Claim C4: on a successful run, `save_report` writes the final
task result verbatim to the single file named
`market_research_report.md` (the default filename), UTF-8 encoded,
and the write overwrites any existing file of that name. -/
theorem save_report_on_success (env : Env) (taskExec : TaskExec) (report : String)
    (fs : String → Option String)
    (hmiss : missing_vars env = [])
    (hrun : run_market_research env taskExec default_topic = Except.ok report) :
    main env taskExec none =
      Except.ok (MainOutcome.completed default_topic report,
                 [save_report report default_report_filename]) ∧
    (save_report report default_report_filename).filename = "market_research_report.md" ∧
    (save_report report default_report_filename).content = report ∧
    (save_report report default_report_filename).encoding = "utf-8" ∧
    applyWrite fs (save_report report default_report_filename) "market_research_report.md" =
      some report := by
  refine ⟨?_, rfl, rfl, rfl, ?_⟩
  · simp [main, hmiss, main_try, hrun]
  · simp [applyWrite, save_report, default_report_filename]

/-- Witness for claim C4 at a concrete successful run, over a file
system where the report file already exists with other content: the
file holds exactly the final task result afterwards. -/
theorem save_report_on_success_witness :
    main envFull okExec none =
      Except.ok (MainOutcome.completed default_topic "1",
                 [save_report "1" default_report_filename]) ∧
    (save_report "1" default_report_filename).filename = "market_research_report.md" ∧
    (save_report "1" default_report_filename).content = "1" ∧
    (save_report "1" default_report_filename).encoding = "utf-8" ∧
    applyWrite (fun _ => some "stale report") (save_report "1" default_report_filename)
      "market_research_report.md" = some "1" :=
  save_report_on_success envFull okExec "1" (fun _ => some "stale report")
    (by decide) rfl

/-- Claim C5: every agent constructed by the program has
`allow_delegation` set to `false`; in particular every agent of the
crew built by `run_market_research` has it set to `false`, so no
agent in the pipeline may delegate work. -/
theorem agents_never_delegate (env : Env) (topic : String) :
    (create_research_analyst env).allow_delegation = false ∧
    (create_content_officer env).allow_delegation = false ∧
    ∀ a ∈ (market_research_crew env topic).agents, a.allow_delegation = false := by
  refine ⟨rfl, rfl, ?_⟩
  intro a ha
  simp only [market_research_crew, List.mem_cons, List.not_mem_nil, or_false] at ha
  rcases ha with h | h <;> subst h <;> rfl

/-- Witness for claim C5: the first agent of the concrete crew has
delegation disabled. -/
theorem agents_never_delegate_witness :
    (create_research_analyst envFull).allow_delegation = false :=
  (agents_never_delegate envFull "AI chips").2.2 (create_research_analyst envFull)
    (List.mem_cons_self _ _)

/-- Claim C6: the Chief Content Officer is constructed with no tools
(the empty default tool list), and so is the agent bound to the
writing task, which is therefore produced by pure language-model
synthesis with no tool calls. -/
theorem content_officer_no_tools (env : Env) (topic : String) :
    (create_content_officer env).tools = [] ∧
    (create_writing_task (create_content_officer env) topic).agent.tools = [] :=
  ⟨rfl, rfl⟩

/-- Claim C7: both agents bind the language model identified by
`OPENAI_MODEL` when that variable is set and by the fixed default
`gpt-4` when it is unset, at the configuration-time constant
temperature `0.7`, which lies in the interval `[0, 2]`. -/
theorem llm_model_and_temperature (env : Env) :
    (create_research_analyst env).llm.model = (env "OPENAI_MODEL").getD "gpt-4" ∧
    (create_content_officer env).llm.model = (env "OPENAI_MODEL").getD "gpt-4" ∧
    (create_research_analyst env).llm.temperature = 0.7 ∧
    (create_content_officer env).llm.temperature = 0.7 ∧
    0 ≤ (create_research_analyst env).llm.temperature ∧
    (create_research_analyst env).llm.temperature ≤ 2 ∧
    0 ≤ (create_content_officer env).llm.temperature ∧
    (create_content_officer env).llm.temperature ≤ 2 := by
  refine ⟨rfl, rfl, rfl, rfl, ?_, ?_, ?_, ?_⟩ <;>
    simp [create_research_analyst, create_content_officer] <;> norm_num

/-- Claim C8 counterexample: the claim says the topic is validated to
be non-empty, but no such validation exists — with the empty string
as topic, `run_market_research` still builds both tasks and runs the
pipeline to completion instead of refusing. -/
theorem empty_topic_accepted :
    run_market_research envFull okExec "" = Except.ok "1" := rfl

set_option maxRecDepth 16384 in
/-- Claim C8 (amended): the research topic is a single free-text
string supplied by the caller, interpolated verbatim as opaque text
into both task descriptions; no validation at all is applied to it —
every topic, the empty string included, is accepted and the pipeline
runs. -/
theorem topic_interpolated_unvalidated (env : Env) (topic : String) :
    (create_research_task (create_research_analyst env) topic).description =
      "Conduct comprehensive research on: " ++ topic ++ research_task_framing ∧
    (create_writing_task (create_content_officer env) topic).description =
      "Transform the research findings about \x27" ++ topic ++ writing_task_framing ∧
    ∀ r : String, run_market_research env (constExec r) topic = Except.ok r := by
  refine ⟨?_, ?_, ?_⟩
  · simp only [create_research_task, research_task_framing, String.append_assoc]
    rfl
  · simp only [create_writing_task, writing_task_framing, String.append_assoc]
    rfl
  · intro r
    simp [run_market_research, market_research_crew, Crew.kickoff, runTasksSeq, constExec]

/-- Claim C9: a required environment variable set to the empty string
is classified as missing by the falsy check in `main`, exactly like
an absent variable: it appears in the reported missing list and the
run is refused. -/
theorem empty_string_treated_as_missing (env : Env) (v : String)
    (hv : v ∈ required_vars) (he : env v = some "") :
    v ∈ missing_vars env ∧
    ∀ (taskExec : TaskExec) (saveErr : Option PyError),
      main env taskExec saveErr =
        Except.ok (MainOutcome.missingConfig (missing_vars env), []) := by
  have hmem : v ∈ missing_vars env := by
    simp only [missing_vars, List.mem_filter]
    exact ⟨hv, by rw [he]; decide⟩
  refine ⟨hmem, ?_⟩
  intro taskExec saveErr
  have hne : missing_vars env ≠ [] := List.ne_nil_of_mem hmem
  simp [main, hne]

/-- Witness for claim C9: with `OPENAI_API_KEY` set to the empty
string (and every other variable non-empty), that variable is
reported missing and the run is refused. -/
theorem empty_string_treated_as_missing_witness :
    "OPENAI_API_KEY" ∈ missing_vars envEmptyKey ∧
    main envEmptyKey okExec none =
      Except.ok (MainOutcome.missingConfig ["OPENAI_API_KEY"], []) := by
  have h := empty_string_treated_as_missing envEmptyKey "OPENAI_API_KEY"
    (by decide) rfl
  exact ⟨h.1, h.2 okExec none⟩

/-- Claim C10: `main` never propagates an exception — for every
environment, task executor and save behaviour it returns normally
(`Except.ok`), and whenever the `try` body raises, the outcome is the
printed report of the exception type name and message. -/
theorem main_catches_all_errors (env : Env) (taskExec : TaskExec)
    (saveErr : Option PyError) :
    (∃ r, main env taskExec saveErr = Except.ok r) ∧
    (∀ e : PyError, missing_vars env = [] →
      main_try env taskExec saveErr = Except.error e →
      main env taskExec saveErr =
        Except.ok (MainOutcome.runFailed e.name e.msg, [])) := by
  constructor
  · by_cases h : missing_vars env = []
    · cases htry : main_try env taskExec saveErr with
      | ok r => exact ⟨r, by simp [main, h, htry]⟩
      | error e =>
          exact ⟨(MainOutcome.runFailed e.name e.msg, []), by simp [main, h, htry]⟩
    · exact ⟨(MainOutcome.missingConfig (missing_vars env), []), by simp [main, h]⟩
  · intro e hmiss htry
    simp [main, hmiss, htry]

/-- Witness for claim C10 at a concrete input where the run succeeds
but saving the report raises: the exception is caught and `main`
returns normally with its type name and message reported. -/
theorem main_catches_all_errors_witness :
    main envFull okExec (some ⟨"OSError", "disk full"⟩) =
      Except.ok (MainOutcome.runFailed "OSError" "disk full", []) :=
  (main_catches_all_errors envFull okExec (some ⟨"OSError", "disk full"⟩)).2
    ⟨"OSError", "disk full"⟩ (by decide) rfl

end MarketResearch
